import Mathlib

/-!
Shallow embedding of the download engine in `src/core/downloader.py` of
boool369/asmr_downloader_webui, together with theorems settling the spec
claims about it.

Network, disk and callback effects are modelled by passing the relevant
outcomes (HTTP responses, on-disk file sizes, per-file transfer results)
explicitly as arguments; the Python functions then become pure Lean
functions of those outcomes, and their observable behaviour (return
values, requests issued, bytes written, progress callbacks) is returned
as data.
-/

namespace AsmrDownloader

/-! ## Endpoint rotation (`BASE_URLS`, `rotate_api`, `get_current_api`) -/

/-- The fixed candidate endpoint list `BASE_URLS`. -/
def BASE_URLS : List String :=
  ["https://api.asmr.one",
   "https://api.asmr-100.com",
   "https://api.asmr-200.com",
   "https://api.asmr-300.com"]

/-- `rotate_api`: advance the process-wide `API_INDEX` modulo the list length.
The global variable is modelled by explicit state passing. -/
def rotate_api (api_index : Nat) : Nat :=
  (api_index + 1) % BASE_URLS.length

/-- `get_current_api`: the URL at the current index. -/
def get_current_api (api_index : Nat) : String :=
  BASE_URLS.getD api_index ""

/-! ## Resilient fetch (`fetch_with_retry`) -/

/-- Outcome of one attempted GET inside `fetch_with_retry`: either the server
responded with some status and (parsed) body, or the request raised. -/
inductive AttemptOutcome (α : Type) where
  | response (status : Nat) (body : α)
  | thrown (msg : String)
deriving DecidableEq

/-- An attempt succeeds exactly when the response status is 200. -/
def attempt_succeeds {α : Type} : AttemptOutcome α → Bool
  | .response status _ => status == 200
  | .thrown _ => false

/-- `fetch_with_retry`, with the loop's `max_retries` attempts modelled by a
list of attempt outcomes (the outcome each successive attempt would have).
Returns the Python return value (`none` is the `None` sentinel) paired with
the final value of the global `API_INDEX`.  A 200 response returns its body
at once; any other status, and any raised error, rotates the API index and
continues with the next attempt. -/
def fetch_with_retry {α : Type} (attempts : List (AttemptOutcome α))
    (api_index : Nat) : Option α × Nat :=
  match attempts with
  | [] => (none, api_index)
  | a :: rest =>
    match a with
    | .response status body =>
      if status = 200 then (some body, api_index)
      else fetch_with_retry rest (rotate_api api_index)
    | .thrown _ => fetch_with_retry rest (rotate_api api_index)

/-! ## Configuration (`load_config` defaults) -/

/-- The configuration record produced by `load_config` (defaults shown in
`default_config`; the host may override any field). -/
structure Config where
  output_dir : String := "Downloads"
  hq_audio_only : Bool := false
  default_file_types : List String := ["audio", "image", "text"]
  max_concurrent_downloads : Nat := 3
  proxy : String := ""
  listen_host : String := "127.0.0.1"
  listen_port : Nat := 7683
deriving DecidableEq

/-! ## Size formatting (`format_size`) -/

/-- Render a value given in hundredths with two decimal places. -/
def two_decimals (centi : Nat) : String :=
  toString (centi / 100) ++ "." ++
    (if centi % 100 < 10 then "0" else "") ++ toString (centi % 100)

/-- `format_size`: loop dividing by 1024 through B/KB/MB/GB, else TB.  The
Python original divides in binary floating point and renders with `:.2f`;
here the running value is kept in hundredths with round-to-nearest integer
division.  No claim depends on the exact rendered string. -/
def format_size (size_bytes : Nat) : String :=
  go (size_bytes * 100) ["B", "KB", "MB", "GB"]
where
  go : Nat → List String → String
  | centi, [] => two_decimals centi ++ " TB"
  | centi, unit :: rest =>
    if centi < 1024 * 100 then two_decimals centi ++ " " ++ unit
    else go ((centi + 512) / 1024) rest

/-! ## The tracks tree and the flattener (`recursively_transform_data_v2`) -/

/-- A node of the nested tracks tree returned by `GET /api/tracks/{id}?v=2`.
`type?` is the `"type"` key (`none` = key absent); `children?` collapses the
two skipped cases of the source (`"children"` absent, or present but null)
into `none`, since the code treats them identically; `size` defaults to 0
when the key is absent, as `item.get("size", 0)` does. -/
inductive TreeNode where
  | mk (type? : Option String) (title : String)
       (children? : Option (List TreeNode))
       (mediaDownloadUrl : Option String) (size : Nat)

/-- A flattened file entry as built by `recursively_transform_data_v2`. -/
structure FileInfo where
  index : Nat
  filename : String
  url : Option String
  type : String
  size : Nat
  size_formatted : String
  folder_path : String
deriving DecidableEq

/-- ASCII model of Python `str.lower()` (filenames' extensions are ASCII). -/
def pyLower (s : String) : String := String.mk (s.toList.map Char.toLower)

/-- Python `str.endswith`, as a suffix test on the character lists. -/
def py_endswith (s suffix : String) : Bool :=
  suffix.toList.isSuffixOf s.toList

/-- The HQ-extension test `item_title.lower().endswith((".flac",".wav",".mp3"))`. -/
def is_hq_title (item_title : String) : Bool :=
  py_endswith (pyLower item_title) ".flac" ||
  py_endswith (pyLower item_title) ".wav" ||
  py_endswith (pyLower item_title) ".mp3"

/-- `recursively_transform_data_v2 data all_files current_folder_path
index_start config`: walks the tree in pre-order; `folder` nodes push their
title onto the path and recurse into their children (when present and
non-null) without consuming an index; nodes whose type is in
`config.default_file_types` pass the HQ filter (when `hq_audio_only` is set
and the type is `audio`, only HQ titles or sizes above 50 MiB are kept) and,
when admitted, are appended with the next sequential index; every other node
is skipped.  The Python function mutates `all_files` and returns the next
index; here the grown list is returned alongside it. -/
def recursively_transform_data_v2 (data : List TreeNode)
    (all_files : List FileInfo) (current_folder_path : List String)
    (index_start : Nat) (config : Config) : List FileInfo × Nat :=
  match data with
  | [] => (all_files, index_start)
  | TreeNode.mk item_type item_title children mediaDownloadUrl size :: rest =>
    if item_type = some "folder" then
      match children with
      | some cs =>
        let r := recursively_transform_data_v2 cs all_files
          (current_folder_path ++ [item_title]) index_start config
        recursively_transform_data_v2 rest r.1 current_folder_path r.2 config
      | none =>
        recursively_transform_data_v2 rest all_files current_folder_path
          index_start config
    else
      match item_type with
      | some t =>
        if t ∈ config.default_file_types then
          let is_hq := is_hq_title item_title
          let is_hq_by_size : Bool := size > 50 * 1024 * 1024
          if config.hq_audio_only && t == "audio" && !(is_hq || is_hq_by_size) then
            recursively_transform_data_v2 rest all_files current_folder_path
              index_start config
          else
            let file_info : FileInfo :=
              { index := index_start
                filename := item_title
                url := mediaDownloadUrl
                type := t
                size := size
                size_formatted := format_size size
                folder_path := String.intercalate "/" current_folder_path }
            recursively_transform_data_v2 rest (all_files ++ [file_info])
              current_folder_path (index_start + 1) config
        else
          recursively_transform_data_v2 rest all_files current_folder_path
            index_start config
      | none =>
        recursively_transform_data_v2 rest all_files current_folder_path
          index_start config

/-! ## Work info resolution (`get_work_info_async`) -/

/-- The JSON object returned by `GET /api/workInfo/{id}`, reduced to the one
key the code inspects: `title?` is `none` when the `"title"` key is absent. -/
structure WorkData where
  title? : Option String
deriving DecidableEq

/-- The fetch outcomes and exception behaviour observed by one call of
`get_work_info_async`: `work_data` and `tracks_data` are the two
`fetch_with_retry` results (`none` = the fetch returned the `None`
sentinel), and `exn = some e` models an unexpected exception raised inside
the `try` block (caught by the outermost handler). -/
structure GwiEnv where
  work_data : Option WorkData
  tracks_data : Option (List TreeNode)
  exn : Option String

/-- `get_work_info_async`: the (file list, title-or-error) pair.  The four
failure shapes of the source are reproduced verbatim: metadata fetch failed
or no `"title"` key; tracks fetch failed; zero entries after flattening; and
any unexpected exception converted to a generic system-error string. -/
def get_work_info_async (rj_id : String) (env : GwiEnv) (config : Config) :
    List FileInfo × String :=
  match env.exn with
  | some e => ([], "系统错误: " ++ e)
  | none =>
    match env.work_data with
    | none => ([], "作品信息获取失败或资源不存在。")
    | some work_data =>
      match work_data.title? with
      | none => ([], "作品信息获取失败或资源不存在。")
      | some work_title =>
        match env.tracks_data with
        | none => ([], work_title ++ " (文件列表获取失败)")
        | some tracks_data =>
          let res := recursively_transform_data_v2 tracks_data [] [] 1 config
          if res.1.isEmpty then ([], work_title ++ " (未找到符合条件的文件)")
          else (res.1, work_title)

/-! ## Filename sanitization (the `sanitize_filename` closure in
`download_worker`) -/

/-- The characters of the character class in `re.sub(r'[\\/:*?"<>|]', ' ', name)`. -/
def is_illegal_char (c : Char) : Bool :=
  c = '\\' || c = '/' || c = ':' || c = '*' || c = '?' ||
  c = '"' || c = '<' || c = '>' || c = '|'

/-- The whitespace characters removed by Python `str.strip()` (ASCII range). -/
def is_py_space (c : Char) : Bool :=
  c = ' ' || c = '\t' || c = '\n' || c = '\r' ||
  c = Char.ofNat 11 || c = Char.ofNat 12

/-- Python `str.strip()`: drop leading and trailing whitespace. -/
def py_strip (l : List Char) : List Char :=
  ((l.dropWhile is_py_space).reverse.dropWhile is_py_space).reverse

/-- Python `str.replace("..", "_")`: left-to-right non-overlapping
replacement of each `".."` by `"_"`. -/
def replace_dotdot : List Char → List Char
  | '.' :: '.' :: rest => '_' :: replace_dotdot rest
  | c :: rest => c :: replace_dotdot rest
  | [] => []

/-- `sanitize_filename`: replace every filesystem-illegal character by a
space, strip the result, collapse each `".."` to `"_"`, then replace every
remaining `"."` by a space. -/
def sanitize_filename (name : String) : String :=
  let step1 := name.toList.map (fun c => if is_illegal_char c then ' ' else c)
  let step2 := py_strip step1
  let step3 := replace_dotdot step2
  String.mk (step3.map (fun c => if c = '.' then ' ' else c))

/-! ## The file transfer worker (`download_worker`) -/

/-- The HTTP response the download GET would receive: `ok` is whether
`raise_for_status()` passes (2xx), `contentLength` the `content-length`
header (0 when absent), and `chunks` the byte counts of the streamed body
chunks. -/
structure DlResponse where
  ok : Bool
  contentLength : Nat
  chunks : List Nat
deriving DecidableEq

/-- The observable behaviour of one `download_worker` call: `request` is
`none` when no network request is issued, and `some range?` when a GET is
issued with (`some s` = header `Range: bytes=s-`) or without (`none`) a
range header; `mode` is the file-open mode (`"wb"` or `"ab"`); `finalSize`
the size of the target file on disk afterwards (`none` = no file);
`callbacks` the `(bytes, total)` arguments of every progress callback in
order; `success` the boolean return value. -/
structure DlOutcome where
  request : Option (Option Nat)
  mode : String
  finalSize : Option Nat
  callbacks : List (Nat × Nat)
  success : Bool
deriving DecidableEq

/-- The throttled progress callbacks emitted inside the chunk loop: the
counter increments per chunk and a callback fires every 50th chunk. -/
def chunk_callbacks (chunks : List Nat) (current_downloaded : Nat)
    (update_counter : Nat) (total_size : Nat) : List (Nat × Nat) :=
  match chunks with
  | [] => []
  | c :: rest =>
    let current2 := current_downloaded + c
    let counter2 := update_counter + 1
    if counter2 % 50 = 0 then
      (current2, total_size) :: chunk_callbacks rest current2 counter2 total_size
    else
      chunk_callbacks rest current2 counter2 total_size

/-- The part of `download_worker` from the GET onwards (inside the
semaphore): issue the request, fail on a non-2xx status (`raise_for_status`
throws before anything is written, so the disk keeps the pre-request state:
the partial file in append mode, nothing in write mode), otherwise compute
`total_size = content-length + downloaded_size` (falling back to the
API-reported size only when that sum is zero), stream all chunks, and emit
the final `(total, total)` callback. -/
def request_and_stream (expected_size downloaded_size : Nat) (mode : String)
    (headers_range : Option Nat) (resp : DlResponse) : DlOutcome :=
  if resp.ok then
    let content_length := resp.contentLength
    let total_size :=
      if content_length + downloaded_size = 0 ∧ expected_size > 0 then
        expected_size
      else content_length + downloaded_size
    { request := some headers_range
      mode := mode
      finalSize := some (downloaded_size + resp.chunks.sum)
      callbacks := chunk_callbacks resp.chunks downloaded_size 0 total_size
        ++ [(total_size, total_size)]
      success := true }
  else
    { request := some headers_range
      mode := mode
      finalSize := if mode = "ab" then some downloaded_size else none
      callbacks := []
      success := false }

/-- `download_worker` for one file entry: `expected_size` is the
API-reported size, `disk_size` the size of the file already at the target
path (`none` = no file).  Resume decision as in the source: equal size (when
expected > 0) is an immediate success with one `(E, E)` callback and no
request; smaller than expected resumes in append mode with a
`Range: bytes=S-` header; otherwise the existing file is deleted and the
transfer restarts from zero in write mode. -/
def download_worker (expected_size : Nat) (disk_size : Option Nat)
    (resp : DlResponse) : DlOutcome :=
  match disk_size with
  | some downloaded_size =>
    if expected_size > 0 ∧ downloaded_size = expected_size then
      { request := none
        mode := "wb"
        finalSize := some downloaded_size
        callbacks := [(expected_size, expected_size)]
        success := true }
    else if downloaded_size < expected_size then
      request_and_stream expected_size downloaded_size "ab"
        (some downloaded_size) resp
    else
      request_and_stream expected_size 0 "wb" none resp
  | none => request_and_stream expected_size 0 "wb" none resp

/-! ## Per-work job (`process_download_job`) -/

/-- `process_download_job`: re-resolve the work's file list (passed here as
`files_info_dicts`, the first component of `get_work_info_async`), filter to
the selected indices, fail fast on an empty selection, run one transfer per
selected file (its boolean result given by the environment `transfer_result`)
and succeed iff the count of successes equals the number of selected files. -/
def process_download_job (selected_indices : List Nat)
    (files_info_dicts : List FileInfo)
    (transfer_result : FileInfo → Bool) : Bool :=
  let selected_files :=
    files_info_dicts.filter (fun f => selected_indices.contains f.index)
  if selected_files.isEmpty then false
  else
    let results := selected_files.map transfer_result
    let success_count := (results.map (fun b => if b then 1 else 0)).sum
    success_count == selected_files.length

/-! ## Batch job (`process_bulk_download_job`) -/

/-- The environment of one iteration of the bulk loop: the files and title
resolved by `get_work_info_async`, and the result of `process_download_job`
(`none` models an exception caught by the per-work handler). -/
structure BulkWorkOutcome where
  files : List FileInfo
  work_title : String
  download_result : Option Bool
deriving DecidableEq

/-- The bulk loop's running `success_count`: a work with no files is
skipped; a completed download adds one; a failed or raising download adds
nothing. -/
def bulk_success_count : List BulkWorkOutcome → Nat → Nat
  | [], success_count => success_count
  | w :: rest, success_count =>
    if w.files.isEmpty then bulk_success_count rest success_count
    else
      match w.download_result with
      | some true => bulk_success_count rest (success_count + 1)
      | _ => bulk_success_count rest success_count

/-- `process_bulk_download_job`: an empty id list returns `(False, "RJ ID
列表为空。")`; otherwise the works are processed sequentially and the result
is `success_count == total_works` with the final summary message. -/
def process_bulk_download_job (works : List BulkWorkOutcome) : Bool × String :=
  let total_works := works.length
  if works.isEmpty then (false, "RJ ID 列表为空。")
  else
    let success_count := bulk_success_count works 0
    (success_count == total_works,
     "批量下载完成。成功下载 " ++ toString success_count ++ " / "
       ++ toString total_works ++ " 个作品。")

/-! ## Unfolding lemmas for the flattener -/

/-- Flattening an empty node list returns the accumulator and index unchanged. -/
theorem rtd_nil (acc : List FileInfo) (path : List String) (n : Nat) (cfg : Config) :
    recursively_transform_data_v2 [] acc path n cfg = (acc, n) := by
  simp only [recursively_transform_data_v2]

/-- A folder node with a non-null children list recurses into the children
with its title pushed onto the path, then continues with the siblings. -/
theorem rtd_folder_some (title : String) (cs : List TreeNode) (url : Option String)
    (size : Nat) (rest : List TreeNode) (acc : List FileInfo) (path : List String)
    (n : Nat) (cfg : Config) :
    recursively_transform_data_v2
        (TreeNode.mk (some "folder") title (some cs) url size :: rest) acc path n cfg
      = recursively_transform_data_v2 rest
          (recursively_transform_data_v2 cs acc (path ++ [title]) n cfg).1 path
          (recursively_transform_data_v2 cs acc (path ++ [title]) n cfg).2 cfg := by
  simp [recursively_transform_data_v2]

/-- A folder node with absent or null children is skipped entirely. -/
theorem rtd_folder_none (title : String) (url : Option String)
    (size : Nat) (rest : List TreeNode) (acc : List FileInfo) (path : List String)
    (n : Nat) (cfg : Config) :
    recursively_transform_data_v2
        (TreeNode.mk (some "folder") title none url size :: rest) acc path n cfg
      = recursively_transform_data_v2 rest acc path n cfg := by
  simp [recursively_transform_data_v2]

/-- A node without a `type` key is skipped. -/
theorem rtd_none_type (title : String) (children : Option (List TreeNode))
    (url : Option String) (size : Nat) (rest : List TreeNode) (acc : List FileInfo)
    (path : List String) (n : Nat) (cfg : Config) :
    recursively_transform_data_v2
        (TreeNode.mk none title children url size :: rest) acc path n cfg
      = recursively_transform_data_v2 rest acc path n cfg := by
  cases children <;> simp [recursively_transform_data_v2]

/-- A node whose type is outside the allowed-kinds set is skipped. -/
theorem rtd_not_allowed (t : String) (title : String) (children : Option (List TreeNode))
    (url : Option String) (size : Nat) (rest : List TreeNode) (acc : List FileInfo)
    (path : List String) (n : Nat) (cfg : Config)
    (hne : t ≠ "folder") (ht : t ∉ cfg.default_file_types) :
    recursively_transform_data_v2
        (TreeNode.mk (some t) title children url size :: rest) acc path n cfg
      = recursively_transform_data_v2 rest acc path n cfg := by
  cases children <;> simp [recursively_transform_data_v2, hne, ht]

/-- An allowed node rejected by the HQ filter is skipped. -/
theorem rtd_hq_skip (t : String) (title : String) (children : Option (List TreeNode))
    (url : Option String) (size : Nat) (rest : List TreeNode) (acc : List FileInfo)
    (path : List String) (n : Nat) (cfg : Config)
    (hne : t ≠ "folder") (ht : t ∈ cfg.default_file_types)
    (hskip : (cfg.hq_audio_only && t == "audio"
      && !(is_hq_title title || decide (size > 50 * 1024 * 1024))) = true) :
    recursively_transform_data_v2
        (TreeNode.mk (some t) title children url size :: rest) acc path n cfg
      = recursively_transform_data_v2 rest acc path n cfg := by
  have hs := hskip
  simp at hs
  cases children <;> simp [recursively_transform_data_v2, hne, ht, hskip] <;>
    (intro h; exact absurd (h hs.1.1 hs.1.2 hs.2.1) (by omega))

/-- An allowed node passing the HQ filter is appended with the next index. -/
theorem rtd_keep (t : String) (title : String) (children : Option (List TreeNode))
    (url : Option String) (size : Nat) (rest : List TreeNode) (acc : List FileInfo)
    (path : List String) (n : Nat) (cfg : Config)
    (hne : t ≠ "folder") (ht : t ∈ cfg.default_file_types)
    (hkeep : (cfg.hq_audio_only && t == "audio"
      && !(is_hq_title title || decide (size > 50 * 1024 * 1024))) = false) :
    recursively_transform_data_v2
        (TreeNode.mk (some t) title children url size :: rest) acc path n cfg
      = recursively_transform_data_v2 rest
          (acc ++ [{ index := n, filename := title, url := url, type := t,
                     size := size, size_formatted := format_size size,
                     folder_path := String.intercalate "/" path }])
          path (n + 1) cfg := by
  have hk := hkeep
  simp at hk
  cases children <;> simp [recursively_transform_data_v2, hne, ht] <;>
    (intro h1 h2 h3 h4; exact absurd (hk h1 h2 h3) (Nat.not_lt.mpr h4))

/-- Every run of the flattener appends a block of new entries whose index
fields are exactly the contiguous run starting at the given index, and
returns the start index plus the number of new entries. -/
theorem rtd_run_spec (data : List TreeNode) (acc : List FileInfo)
    (path : List String) (n : Nat) (cfg : Config) :
    ∃ new, recursively_transform_data_v2 data acc path n cfg
        = (acc ++ new, n + new.length)
      ∧ new.map FileInfo.index = List.range' n new.length := by
  induction data, acc, path, n, cfg using recursively_transform_data_v2.induct with
  | case1 acc path n cfg =>
    exact ⟨[], by simp [rtd_nil]⟩
  | case2 acc path n cfg title url size rest cs r ih1 ih2 =>
    obtain ⟨new1, h1, hm1⟩ := ih1
    obtain ⟨new2, h2, hm2⟩ := ih2
    have hr : r = (acc ++ new1, n + new1.length) := h1
    rw [hr] at h2 hm2
    simp only [] at h2 hm2
    refine ⟨new1 ++ new2, ?_, ?_⟩
    · rw [rtd_folder_some]
      simp only [h1]
      rw [h2]
      simp only [Prod.mk.injEq, List.append_assoc, List.length_append]
      exact ⟨trivial, by omega⟩
    · simp only [List.map_append, hm1, hm2, List.length_append]
      rw [List.range'_append_1, Nat.add_comm new1.length new2.length]
  | case3 acc path n cfg title url size rest ih =>
    obtain ⟨new, h, hm⟩ := ih
    exact ⟨new, by rw [rtd_folder_none]; exact h, hm⟩
  | case4 acc path n cfg title children url size rest t ht ishq ishqsz hskip hne ih =>
    obtain ⟨new, h, hm⟩ := ih
    refine ⟨new, ?_, hm⟩
    rw [rtd_hq_skip t title children url size rest acc path n cfg
      (by simpa using hne) ht hskip]
    exact h
  | case5 acc path n cfg title children url size rest t ht ishq ishqsz hkeep finfo hne ih =>
    obtain ⟨new, h, hm⟩ := ih
    have hfi : FileInfo.mk n title url t size (format_size size)
        (String.intercalate "/" path) = finfo := rfl
    refine ⟨finfo :: new, ?_, ?_⟩
    · rw [rtd_keep t title children url size rest acc path n cfg
        (by simpa using hne) ht (by
          revert hkeep
          cases hb : (cfg.hq_audio_only && t == "audio"
            && !(is_hq_title title || decide (size > 50 * 1024 * 1024))) <;> simp)]
      rw [hfi, h]
      simp only [Prod.mk.injEq, List.append_assoc, List.singleton_append, List.length_cons]
      exact ⟨trivial, by omega⟩
    · have hidx : finfo.index = n := rfl
      simp only [List.map_cons, hidx, hm, List.length_cons, List.range'_succ]
  | case6 acc path n cfg title children url size rest t ht hne ih =>
    obtain ⟨new, h, hm⟩ := ih
    refine ⟨new, ?_, hm⟩
    rw [rtd_not_allowed t title children url size rest acc path n cfg
      (by simpa using hne) ht]
    exact h
  | case7 acc path n cfg title children url size rest hne ih =>
    obtain ⟨new, h, hm⟩ := ih
    refine ⟨new, ?_, hm⟩
    rw [rtd_none_type]
    exact h

/-! ## Retry and rotation behaviour of the fetcher -/

/-- When every attempt of a run fails, the fetcher returns the null sentinel
and the endpoint index has advanced once per attempt, modulo the list length. -/
theorem fetch_all_fail {α : Type} (attempts : List (AttemptOutcome α)) (api_index : Nat)
    (hidx : api_index < BASE_URLS.length)
    (hfail : ∀ a ∈ attempts, attempt_succeeds a = false) :
    fetch_with_retry attempts api_index
      = (none, (api_index + attempts.length) % BASE_URLS.length) := by
  induction attempts generalizing api_index with
  | nil => simp [fetch_with_retry, Nat.mod_eq_of_lt hidx]
  | cons a rest ih =>
    have hrot : rotate_api api_index < BASE_URLS.length := by
      simp only [rotate_api]
      exact Nat.mod_lt _ (by simp [BASE_URLS])
    have hrest : ∀ x ∈ rest, attempt_succeeds x = false := by
      intro x hx; exact hfail x (List.mem_cons_of_mem _ hx)
    cases a with
    | response status body =>
      have hst : ¬status = 200 := by
        have := hfail _ (List.mem_cons_self _ _)
        simpa [attempt_succeeds] using this
      simp only [fetch_with_retry, if_neg hst]
      rw [ih _ hrot hrest]
      simp only [rotate_api, List.length_cons]
      rw [Nat.mod_add_mod]
      congr 2
      omega
    | thrown m =>
      simp only [fetch_with_retry]
      rw [ih _ hrot hrest]
      simp only [rotate_api, List.length_cons]
      rw [Nat.mod_add_mod]
      congr 2
      omega

/-- The first 200 response returns its body at once, with one index advance
per failed attempt before it and none afterwards. -/
theorem fetch_first_success {α : Type} (pre post : List (AttemptOutcome α)) (body : α)
    (api_index : Nat) (hidx : api_index < BASE_URLS.length)
    (hfail : ∀ a ∈ pre, attempt_succeeds a = false) :
    fetch_with_retry (pre ++ AttemptOutcome.response 200 body :: post) api_index
      = (some body, (api_index + pre.length) % BASE_URLS.length) := by
  induction pre generalizing api_index with
  | nil => simp [fetch_with_retry, Nat.mod_eq_of_lt hidx]
  | cons a rest ih =>
    have hrot : rotate_api api_index < BASE_URLS.length := by
      simp only [rotate_api]
      exact Nat.mod_lt _ (by simp [BASE_URLS])
    have hrest : ∀ x ∈ rest, attempt_succeeds x = false := by
      intro x hx; exact hfail x (List.mem_cons_of_mem _ hx)
    cases a with
    | response status b =>
      have hst : ¬status = 200 := by
        have := hfail _ (List.mem_cons_self _ _)
        simpa [attempt_succeeds] using this
      simp only [List.cons_append, fetch_with_retry, if_neg hst, List.append_eq]
      rw [ih _ hrot hrest]
      simp only [rotate_api, List.length_cons]
      rw [Nat.mod_add_mod]
      congr 2
      omega
    | thrown m =>
      simp only [List.cons_append, fetch_with_retry, List.append_eq]
      rw [ih _ hrot hrest]
      simp only [rotate_api, List.length_cons]
      rw [Nat.mod_add_mod]
      congr 2
      omega

/-! ## Character-level facts about sanitization -/

/-- Every character of `replace_dotdot l` is the replacement `'_'` or a
character of `l`. -/
theorem mem_replace_dotdot (l : List Char) (c : Char) (hc : c ∈ replace_dotdot l) :
    c = '_' ∨ c ∈ l := by
  induction l using replace_dotdot.induct with
  | case1 rest ih =>
    rw [replace_dotdot] at hc
    rcases List.mem_cons.mp hc with h | h
    · exact Or.inl h
    · rcases ih h with h2 | h2
      · exact Or.inl h2
      · exact Or.inr (by simp [h2])
  | case2 x rest hx ih =>
    rw [replace_dotdot.eq_2] at hc
    · rcases List.mem_cons.mp hc with h | h
      · exact Or.inr (by simp [h])
      · rcases ih h with h2 | h2
        · exact Or.inl h2
        · exact Or.inr (List.mem_cons_of_mem _ h2)
    · exact hx
  | case3 => simp [replace_dotdot] at hc

/-- Stripping only removes characters. -/
theorem mem_py_strip (l : List Char) (c : Char) (hc : c ∈ py_strip l) : c ∈ l := by
  unfold py_strip at hc
  rw [List.mem_reverse] at hc
  have h1 := (List.dropWhile_sublist (l := (l.dropWhile is_py_space).reverse)
    (p := is_py_space)).subset hc
  rw [List.mem_reverse] at h1
  exact (List.dropWhile_sublist (p := is_py_space)).subset h1

/-! ## Counting lemmas for the job orchestrators -/

/-- The sum of boolean indicators is at most the list length. -/
theorem sum_indicator_le (l : List Bool) :
    (l.map fun b => if b then 1 else 0).sum ≤ l.length := by
  induction l with
  | nil => simp
  | cons b rest ih => cases b <;> simp [List.map_cons, List.sum_cons] <;> omega

/-- The sum of boolean indicators equals the length exactly when every
element is `true` (Python `sum(results) == len(results)`). -/
theorem sum_indicator_eq_length_iff (l : List Bool) :
    ((l.map fun b => if b then 1 else 0).sum = l.length) ↔ ∀ b ∈ l, b = true := by
  induction l with
  | nil => simp
  | cons b rest ih =>
    cases b with
    | false =>
      simp only [List.map_cons, List.sum_cons, Bool.false_eq_true, if_false,
        List.length_cons, Nat.zero_add]
      constructor
      · intro h
        exfalso
        have hle := sum_indicator_le rest
        omega
      · intro h
        exact absurd (h false (List.mem_cons_self _ _)) (by simp)
    | true =>
      simp only [List.map_cons, List.sum_cons, if_true, List.length_cons]
      constructor
      · intro h x hx
        rcases List.mem_cons.mp hx with h1 | h1
        · exact h1
        · exact (ih.mp (by omega)) x h1
      · intro h
        have hall : ∀ x ∈ rest, x = true :=
          fun x hx => h x (List.mem_cons_of_mem _ hx)
        have := ih.mpr hall
        omega

/-- The bulk loop counter counts exactly the works with files whose download
returned `true`. -/
theorem bulk_success_count_eq (works : List BulkWorkOutcome) (c : Nat) :
    bulk_success_count works c
      = c + works.countP (fun w => !w.files.isEmpty && (w.download_result == some true)) := by
  induction works generalizing c with
  | nil => simp [bulk_success_count]
  | cons w rest ih =>
    rw [List.countP_cons]
    simp only [bulk_success_count]
    by_cases hf : w.files.isEmpty = true
    · simp [hf, ih]
    · have hf2 : w.files.isEmpty = false := by simpa using hf
      cases hd : w.download_result with
      | none => simp [hf2, hd, ih]
      | some b => cases b <;> simp [hf2, hd, ih] <;> omega

/-! ## The claims -/

/-- Claim C1: for every nested tree and starting index `n ≥ 1`,
`recursively_transform_data_v2` appends the admitted entries in pre-order
with index fields forming the contiguous run `n, n+1, …`, and returns `n`
plus the number of admitted entries; folder nodes and nodes of disallowed
type contribute no entry and therefore consume no index. -/
theorem flattener_contiguous_preorder_indices (data : List TreeNode)
    (acc : List FileInfo) (path : List String) (n : Nat) (cfg : Config)
    (hn : 1 ≤ n) :
    ∃ new, recursively_transform_data_v2 data acc path n cfg
        = (acc ++ new, n + new.length)
      ∧ new.map FileInfo.index = List.range' n new.length :=
  rtd_run_spec data acc path n cfg

/-- Witness for C1: the spec's end-to-end tree, flattened from index 1. -/
theorem flattener_contiguous_preorder_indices_witness :
    ∃ new, recursively_transform_data_v2
        [TreeNode.mk (some "folder") "Disc1"
          (some [TreeNode.mk (some "audio") "t.mp3" none (some "u") 1000]) none 0]
        [] [] 1 {} = ([] ++ new, 1 + new.length)
      ∧ new.map FileInfo.index = List.range' 1 new.length :=
  flattener_contiguous_preorder_indices _ _ _ _ _ (by decide)

/-- Claim C2: with `hq_audio_only = true` and `audio` allowed, an audio node
is admitted exactly when its lowered title ends in `.flac`/`.wav`/`.mp3` or
its size exceeds 50 MiB; an allowed non-audio, non-folder node is admitted
regardless of the HQ flag. -/
theorem hq_filter_admission (cfg : Config) (title : String)
    (children : Option (List TreeNode)) (url : Option String) (size : Nat)
    (acc : List FileInfo) (path : List String) (n : Nat)
    (hhq : cfg.hq_audio_only = true)
    (ha : "audio" ∈ cfg.default_file_types) :
    ((recursively_transform_data_v2 [TreeNode.mk (some "audio") title children url size]
        acc path n cfg).1 ≠ acc
      ↔ (is_hq_title title = true ∨ size > 50 * 1024 * 1024))
    ∧ (∀ t, t ∈ cfg.default_file_types → t ≠ "audio" → t ≠ "folder" → ∀ b : Bool,
        (recursively_transform_data_v2 [TreeNode.mk (some t) title children url size]
          acc path n { cfg with hq_audio_only := b }).1
        = acc ++ [FileInfo.mk n title url t size (format_size size)
            (String.intercalate "/" path)]) := by
  constructor
  · by_cases hk : (is_hq_title title || decide (size > 50 * 1024 * 1024)) = true
    · rw [rtd_keep "audio" title children url size [] acc path n cfg (by decide) ha
        (by simp [hhq, hk])]
      rw [rtd_nil]
      refine iff_of_true (by simp) ?_
      simpa using hk
    · have hk2 : (is_hq_title title || decide (size > 50 * 1024 * 1024)) = false := by
        simpa using hk
      rw [rtd_hq_skip "audio" title children url size [] acc path n cfg (by decide) ha
        (by simp [hhq, hk2])]
      rw [rtd_nil]
      refine iff_of_false (by simp) ?_
      simpa using hk2
  · intro t ht hta htf b
    rw [rtd_keep t title children url size [] acc path n { cfg with hq_audio_only := b }
      htf ht (by simp [hta])]
    rw [rtd_nil]

/-- Witness for C2: with HQ-only on, `x.mp3` of 1 byte is admitted, `x.ogg`
of 1 byte is rejected, `x.ogg` of 60 MiB is admitted. -/
theorem hq_filter_admission_witness :
    ((recursively_transform_data_v2 [TreeNode.mk (some "audio") "x.mp3" none none 1]
        [] [] 1 { hq_audio_only := true }).1 ≠ [])
    ∧ ((recursively_transform_data_v2 [TreeNode.mk (some "audio") "x.ogg" none none 1]
        [] [] 1 { hq_audio_only := true }).1 = [])
    ∧ ((recursively_transform_data_v2
        [TreeNode.mk (some "audio") "x.ogg" none none (60 * 1024 * 1024)]
        [] [] 1 { hq_audio_only := true }).1 ≠ []) := by
  refine ⟨?_, ?_, ?_⟩
  · exact (hq_filter_admission { hq_audio_only := true } "x.mp3" none none 1 [] [] 1 rfl
      (by decide)).1.mpr (Or.inl (by decide))
  · by_contra hne
    exact absurd ((hq_filter_admission { hq_audio_only := true } "x.ogg" none none 1
      [] [] 1 rfl (by decide)).1.mp hne) (by decide)
  · exact (hq_filter_admission { hq_audio_only := true } "x.ogg" none none
      (60 * 1024 * 1024) [] [] 1 rfl (by decide)).1.mpr (Or.inr (by decide))

/-- Claim C3: a run whose attempts all fail returns the null sentinel with
the endpoint index advanced exactly once per attempt modulo the list
length, and the first 200 response returns immediately with no further
advance. -/
theorem fetch_retry_exhaustion_rotation {α : Type}
    (attempts pre post : List (AttemptOutcome α)) (body : α)
    (api_index : Nat) (hidx : api_index < BASE_URLS.length)
    (hfailA : ∀ a ∈ attempts, attempt_succeeds a = false)
    (hfailP : ∀ a ∈ pre, attempt_succeeds a = false) :
    fetch_with_retry attempts api_index
      = (none, (api_index + attempts.length) % BASE_URLS.length)
    ∧ fetch_with_retry (pre ++ AttemptOutcome.response 200 body :: post) api_index
      = (some body, (api_index + pre.length) % BASE_URLS.length) :=
  ⟨fetch_all_fail attempts api_index hidx hfailA,
   fetch_first_success pre post body api_index hidx hfailP⟩

/-- Witness for C3: four failing attempts (the default `max_retries`) from
index 0, and one failing attempt before a 200 from index 2. -/
theorem fetch_retry_exhaustion_rotation_witness :
    fetch_with_retry [AttemptOutcome.thrown "t1", AttemptOutcome.response 503 (0 : Nat),
        AttemptOutcome.thrown "t2", AttemptOutcome.response 404 0] 0
      = (none, (0 + 4) % BASE_URLS.length)
    ∧ fetch_with_retry ([AttemptOutcome.response 503 (7 : Nat)]
        ++ AttemptOutcome.response 200 7 :: []) 2
      = (some 7, (2 + 1) % BASE_URLS.length) :=
  ⟨(fetch_retry_exhaustion_rotation
      [AttemptOutcome.thrown "t1", AttemptOutcome.response 503 (0 : Nat),
        AttemptOutcome.thrown "t2", AttemptOutcome.response 404 0] [] [] 0 0
      (by decide) (by decide) (by decide)).1,
   (fetch_retry_exhaustion_rotation [] [AttemptOutcome.response 503 (7 : Nat)] [] 7 2
      (by decide) (by decide) (by decide)).2⟩

/-- Claim C4: with expected size `E > 0` and a partial file of size
`0 < S < E` on disk, the worker opens in append mode, issues its GET with
`Range: bytes=S-`, and a successful transfer of the remaining `E - S` bytes
leaves the file at exactly `E` bytes. -/
theorem download_resume_range_completes (E S : Nat) (resp : DlResponse)
    (hS : 0 < S) (hSE : S < E) (hok : resp.ok = true)
    (hbody : resp.chunks.sum = E - S) :
    (download_worker E (some S) resp).request = some (some S)
    ∧ (download_worker E (some S) resp).mode = "ab"
    ∧ (download_worker E (some S) resp).success = true
    ∧ (download_worker E (some S) resp).finalSize = some E := by
  have hne : ¬(E > 0 ∧ S = E) := by omega
  have hsum : S + (E - S) = E := by omega
  simp [download_worker, hne, hSE, request_and_stream, hok, hbody, hsum]

/-- Witness for C4: resuming a 10-byte file from byte 3. -/
theorem download_resume_range_completes_witness :
    (download_worker 10 (some 3) ⟨true, 7, [3, 4]⟩).request = some (some 3)
    ∧ (download_worker 10 (some 3) ⟨true, 7, [3, 4]⟩).mode = "ab"
    ∧ (download_worker 10 (some 3) ⟨true, 7, [3, 4]⟩).success = true
    ∧ (download_worker 10 (some 3) ⟨true, 7, [3, 4]⟩).finalSize = some 10 :=
  download_resume_range_completes 10 3 ⟨true, 7, [3, 4]⟩ (by decide) (by decide)
    rfl (by decide)

/-- Claim C5: a file already at its expected size `E > 0` produces no
network request, exactly one `(E, E)` progress callback, a `true` return
and an unchanged file; re-invoking the worker on the resulting disk state
returns the same outcome. -/
theorem download_complete_skip_idempotent (E : Nat) (resp : DlResponse)
    (hE : 0 < E) :
    (download_worker E (some E) resp).request = none
    ∧ (download_worker E (some E) resp).callbacks = [(E, E)]
    ∧ (download_worker E (some E) resp).success = true
    ∧ (download_worker E (some E) resp).finalSize = some E
    ∧ download_worker E ((download_worker E (some E) resp).finalSize) resp
        = download_worker E (some E) resp := by
  simp [download_worker, hE]

/-- Witness for C5: a complete 5-byte file. -/
theorem download_complete_skip_idempotent_witness :
    (download_worker 5 (some 5) ⟨true, 0, []⟩).request = none
    ∧ (download_worker 5 (some 5) ⟨true, 0, []⟩).callbacks = [(5, 5)]
    ∧ (download_worker 5 (some 5) ⟨true, 0, []⟩).success = true
    ∧ (download_worker 5 (some 5) ⟨true, 0, []⟩).finalSize = some 5
    ∧ download_worker 5 ((download_worker 5 (some 5) ⟨true, 0, []⟩).finalSize) ⟨true, 0, []⟩
        = download_worker 5 (some 5) ⟨true, 0, []⟩ :=
  download_complete_skip_idempotent 5 ⟨true, 0, []⟩ (by decide)

/-- Claim C6: the sanitized name contains no filesystem-illegal character
and no dot; `".mp3"` is mangled to `" mp3"` and `"a/b"` collapses to the
single component `"a b"`. -/
theorem sanitize_filename_charset (name : String) :
    (∀ c ∈ (sanitize_filename name).toList,
        is_illegal_char c = false ∧ c ≠ '.')
    ∧ sanitize_filename ".mp3" = " mp3"
    ∧ sanitize_filename "a/b" = "a b" := by
  refine ⟨?_, by rfl, by rfl⟩
  intro c hc
  have hc2 : c ∈ (replace_dotdot (py_strip
      (name.toList.map fun x => if is_illegal_char x then ' ' else x))).map
      (fun x => if x = '.' then ' ' else x) := hc
  rcases List.mem_map.mp hc2 with ⟨d, hd, hcd⟩
  by_cases hdot : d = '.'
  · rw [hdot] at hcd
    simp at hcd
    subst hcd
    exact ⟨rfl, by decide⟩
  · rw [if_neg hdot] at hcd
    subst hcd
    refine ⟨?_, hdot⟩
    rcases mem_replace_dotdot _ _ hd with h | h
    · rw [h]; rfl
    · have h1 := mem_py_strip _ _ h
      rcases List.mem_map.mp h1 with ⟨e, he, hde⟩
      by_cases hie : is_illegal_char e = true
      · rw [← hde, if_pos hie]; decide
      · rw [← hde, if_neg hie]; simpa using hie

/-- Witness for C6: applied to `".mp3"`, whose sanitized form keeps an
`'m'` that is neither illegal nor a dot. -/
theorem sanitize_filename_charset_witness :
    (is_illegal_char 'm' = false ∧ 'm' ≠ '.')
    ∧ sanitize_filename ".mp3" = " mp3" :=
  ⟨(sanitize_filename_charset ".mp3").1 'm' (by decide),
   (sanitize_filename_charset ".mp3").2.1⟩

/-- Claim C7: `get_work_info_async` always returns a pair and never throws:
missing metadata or title gives the not-found string, a failed tracks fetch
gives the title with the file-list-fetch-failed marker, an empty flattening
gives the distinct no-matching-files message, and an unexpected exception is
converted to the generic system-error string with an empty list. -/
theorem work_info_errors_as_values (rj_id : String) (env : GwiEnv) (cfg : Config) :
    (∀ e, env.exn = some e →
      get_work_info_async rj_id env cfg = ([], "系统错误: " ++ e))
    ∧ (env.exn = none → env.work_data = none →
      get_work_info_async rj_id env cfg = ([], "作品信息获取失败或资源不存在。"))
    ∧ (∀ wd, env.exn = none → env.work_data = some wd → wd.title? = none →
      get_work_info_async rj_id env cfg = ([], "作品信息获取失败或资源不存在。"))
    ∧ (∀ wd t, env.exn = none → env.work_data = some wd → wd.title? = some t →
      env.tracks_data = none →
      get_work_info_async rj_id env cfg = ([], t ++ " (文件列表获取失败)"))
    ∧ (∀ wd t tracks, env.exn = none → env.work_data = some wd → wd.title? = some t →
      env.tracks_data = some tracks →
      (recursively_transform_data_v2 tracks [] [] 1 cfg).1 = [] →
      get_work_info_async rj_id env cfg = ([], t ++ " (未找到符合条件的文件)"))
    ∧ (∀ wd t tracks, env.exn = none → env.work_data = some wd → wd.title? = some t →
      env.tracks_data = some tracks →
      (recursively_transform_data_v2 tracks [] [] 1 cfg).1 ≠ [] →
      get_work_info_async rj_id env cfg
        = ((recursively_transform_data_v2 tracks [] [] 1 cfg).1, t)) := by
  obtain ⟨wd, td, ex⟩ := env
  refine ⟨?_, ?_, ?_, ?_, ?_, ?_⟩
  · intro e he
    simp at he
    simp [get_work_info_async, he]
  · intro he hwd
    simp at he hwd
    simp [get_work_info_async, he, hwd]
  · intro w he hwd ht
    simp at he hwd
    simp [get_work_info_async, he, hwd, ht]
  · intro w t he hwd ht htd
    simp at he hwd htd
    simp [get_work_info_async, he, hwd, ht, htd]
  · intro w t tracks he hwd ht htd hflat
    simp at he hwd htd
    simp [get_work_info_async, he, hwd, ht, htd, hflat]
  · intro w t tracks he hwd ht htd hflat
    simp at he hwd htd
    simp [get_work_info_async, he, hwd, ht, htd,
      List.isEmpty_eq_false.mpr hflat]

/-- Witness for C7: metadata with a title but a failed tracks fetch. -/
theorem work_info_errors_as_values_witness :
    get_work_info_async "RJ1" ⟨some ⟨some "T"⟩, none, none⟩ {}
      = ([], "T (文件列表获取失败)") :=
  (work_info_errors_as_values "RJ1" ⟨some ⟨some "T"⟩, none, none⟩ {}).2.2.2.1
    ⟨some "T"⟩ "T" rfl rfl rfl rfl

/-- Claim C8: `process_download_job` returns `false` when the file list
filtered to the selected indices is empty, and otherwise returns `true`
exactly when every per-file transfer returned `true`. -/
theorem download_job_empty_false_all_and (selected_indices : List Nat)
    (files_info_dicts : List FileInfo) (transfer_result : FileInfo → Bool) :
    ((files_info_dicts.filter fun f => selected_indices.contains f.index).isEmpty = true →
      process_download_job selected_indices files_info_dicts transfer_result = false)
    ∧ ((files_info_dicts.filter fun f => selected_indices.contains f.index).isEmpty = false →
      (process_download_job selected_indices files_info_dicts transfer_result = true
        ↔ ∀ f ∈ files_info_dicts.filter fun f => selected_indices.contains f.index,
            transfer_result f = true)) := by
  constructor
  · intro h
    simp only [process_download_job]
    rw [if_pos h]
  · intro h
    simp only [process_download_job, h, Bool.false_eq_true, if_false]
    rw [beq_iff_eq]
    have hlen : (((files_info_dicts.filter fun f =>
        selected_indices.contains f.index).map transfer_result).length)
        = (files_info_dicts.filter fun f => selected_indices.contains f.index).length :=
      List.length_map _ _
    rw [← hlen, sum_indicator_eq_length_iff]
    constructor
    · intro hall f hf
      exact hall _ (List.mem_map_of_mem _ hf)
    · intro hall b hb
      rcases List.mem_map.mp hb with ⟨f, hf, hfb⟩
      rw [← hfb]
      exact hall f hf

/-- Witness for C8: an empty selection fails fast; a full selection of one
file succeeds exactly when its transfer does. -/
theorem download_job_empty_false_all_and_witness :
    process_download_job [] [FileInfo.mk 1 "a.mp3" none "audio" 3 "3.00 B" ""]
        (fun _ => true) = false
    ∧ (process_download_job [1] [FileInfo.mk 1 "a.mp3" none "audio" 3 "3.00 B" ""]
          (fun _ => true) = true
        ↔ ∀ f ∈ ([FileInfo.mk 1 "a.mp3" none "audio" 3 "3.00 B" ""].filter
            fun f => [1].contains f.index), (fun _ => true : FileInfo → Bool) f = true) :=
  ⟨(download_job_empty_false_all_and [] [FileInfo.mk 1 "a.mp3" none "audio" 3 "3.00 B" ""]
      (fun _ => true)).1 rfl,
   (download_job_empty_false_all_and [1] [FileInfo.mk 1 "a.mp3" none "audio" 3 "3.00 B" ""]
      (fun _ => true)).2 rfl⟩

/-- Counterexample to C9 as stated: on the empty work list every work
(vacuously) succeeded, yet the function returns `false`, and the second
component is the empty-list error message rather than a summary of the
form "X / N works succeeded". -/
theorem bulk_empty_list_counterexample :
    (process_bulk_download_job []).1 = false
    ∧ (∀ w ∈ ([] : List BulkWorkOutcome),
        w.files.isEmpty = false ∧ w.download_result = some true)
    ∧ (process_bulk_download_job []).2 = "RJ ID 列表为空。" :=
  ⟨rfl, by simp, rfl⟩

/-- Claim C9 (amended to nonempty lists): for every nonempty work list the
boolean is `true` exactly when every work resolved files and its download
returned `true` (skipped works count as failures), and the message is the
"X / N" summary with X the number of fully successful works. -/
theorem bulk_success_iff_all_and_summary (works : List BulkWorkOutcome)
    (hne : works ≠ []) :
    ((process_bulk_download_job works).1 = true ↔
      ∀ w ∈ works, w.files.isEmpty = false ∧ w.download_result = some true)
    ∧ (process_bulk_download_job works).2
      = "批量下载完成。成功下载 "
        ++ toString (works.countP fun w => !w.files.isEmpty && (w.download_result == some true))
        ++ " / " ++ toString works.length ++ " 个作品。" := by
  have hemp : works.isEmpty = false := by
    cases works with
    | nil => exact absurd rfl hne
    | cons w rest => rfl
  constructor
  · simp only [process_bulk_download_job, hemp, Bool.false_eq_true, if_false]
    rw [beq_iff_eq, bulk_success_count_eq, Nat.zero_add, List.countP_eq_length]
    constructor
    · intro h w hw
      have := h w hw
      simpa using this
    · intro h w hw
      have := h w hw
      simp [this.1, this.2]
  · simp only [process_bulk_download_job, hemp, Bool.false_eq_true, if_false]
    rw [bulk_success_count_eq, Nat.zero_add]

/-- Witness for the amended C9: a single fully successful work yields
`true` and the "1 / 1" summary. -/
theorem bulk_success_iff_all_and_summary_witness :
    ((process_bulk_download_job [⟨[FileInfo.mk 1 "a.mp3" none "audio" 3 "3.00 B" ""],
        "T", some true⟩]).1 = true ↔
      ∀ w ∈ [(⟨[FileInfo.mk 1 "a.mp3" none "audio" 3 "3.00 B" ""], "T",
          some true⟩ : BulkWorkOutcome)],
        w.files.isEmpty = false ∧ w.download_result = some true)
    ∧ (process_bulk_download_job [⟨[FileInfo.mk 1 "a.mp3" none "audio" 3 "3.00 B" ""],
        "T", some true⟩]).2
      = "批量下载完成。成功下载 "
        ++ toString ([(⟨[FileInfo.mk 1 "a.mp3" none "audio" 3 "3.00 B" ""], "T",
            some true⟩ : BulkWorkOutcome)].countP
          fun w => !w.files.isEmpty && (w.download_result == some true))
        ++ " / " ++ toString [(⟨[FileInfo.mk 1 "a.mp3" none "audio" 3 "3.00 B" ""], "T",
            some true⟩ : BulkWorkOutcome)].length ++ " 个作品。" :=
  bulk_success_iff_all_and_summary _ (by decide)

/-- Claim C10: with unknown expected size (0) and an existing file, the
worker deletes the file and restarts from zero in write mode with no range
header (on failure nothing remains on disk; on success the file holds
exactly the streamed bytes); a range header `bytes=S-` is only ever issued
when the expected size is positive, the on-disk file has size `S`, and `S`
is strictly below the expected size. -/
theorem unknown_size_restart_resume_guard (expected_size : Nat)
    (disk_size : Option Nat) (s : Nat) (resp : DlResponse) :
    (expected_size = 0 → disk_size = some s →
      (download_worker expected_size disk_size resp).mode = "wb"
      ∧ (download_worker expected_size disk_size resp).request = some none
      ∧ (resp.ok = true →
          (download_worker expected_size disk_size resp).finalSize = some resp.chunks.sum)
      ∧ (resp.ok = false →
          (download_worker expected_size disk_size resp).finalSize = none))
    ∧ (∀ S, (download_worker expected_size disk_size resp).request = some (some S) →
        0 < expected_size ∧ disk_size = some S ∧ S < expected_size) := by
  constructor
  · intro hE hdisk
    subst hE hdisk
    have h1 : ¬((0 : Nat) > 0 ∧ s = 0) := by omega
    have h2 : ¬(s < 0) := by omega
    simp only [download_worker, if_neg h1, if_neg h2, request_and_stream]
    cases hok : resp.ok with
    | true => simp [hok]
    | false => simp [hok]
  · intro S hreq
    match disk_size with
    | none =>
      simp only [download_worker, request_and_stream] at hreq
      cases hok : resp.ok <;> simp [hok] at hreq
    | some d =>
      by_cases hc1 : expected_size > 0 ∧ d = expected_size
      · simp only [download_worker, if_pos hc1] at hreq
        simp at hreq
      · by_cases hc2 : d < expected_size
        · simp only [download_worker, if_neg hc1, if_pos hc2, request_and_stream] at hreq
          cases hok : resp.ok <;> simp [hok] at hreq <;>
            exact ⟨by omega, by rw [hreq], by omega⟩
        · simp only [download_worker, if_neg hc1, if_neg hc2, request_and_stream] at hreq
          cases hok : resp.ok <;> simp [hok] at hreq

/-- Witness for C10: expected size 0 with a stale 5-byte file on disk. -/
theorem unknown_size_restart_resume_guard_witness :
    (download_worker 0 (some 5) ⟨true, 9, [4, 5]⟩).mode = "wb"
    ∧ (download_worker 0 (some 5) ⟨true, 9, [4, 5]⟩).request = some none
    ∧ (download_worker 0 (some 5) ⟨true, 9, [4, 5]⟩).finalSize = some 9 := by
  have h := (unknown_size_restart_resume_guard 0 (some 5) 5 ⟨true, 9, [4, 5]⟩).1 rfl rfl
  exact ⟨h.1, h.2.1, by rw [h.2.2.1 rfl]; rfl⟩

end AsmrDownloader
